import Mathlib

/-!
Verification of the OCPExplorer core: a shallow embedding of the search
orchestrator (`src/js/search.js`, class `OCPSearchEngine`), the local data
repository (`src/unnamed/part_002`, class `OCPDataHandler`) and the boundary
geometry test (`src/js/data-handler.js`).  JavaScript strings are modelled as
Lean `String`, numbers as `Nat` (integer counts) or `Rat` (coordinates),
JS `Map` as an insertion-ordered association list, and the two effectful
calls of a `search` invocation (the AI proxy fetch and the local search)
as explicit outcome values of type `Except String _`, so that the
try/catch structure of the source is an ordinary case analysis.
-/

/-! ## Character and string helpers (ASCII fragment of the JS semantics) -/

/-- JS `\s` on the ASCII range: space, tab, newline, carriage return,
vertical tab, form feed. -/
def isSpaceChar (c : Char) : Bool :=
  c = ' ' || c = '\t' || c = '\n' || c = '\x0d' || c = '\x0b' || c = '\x0c'

/-- JS `\w`: ASCII letters, digits and underscore. -/
def isWordChar (c : Char) : Bool :=
  ('a' ≤ c && c ≤ 'z') || ('A' ≤ c && c ≤ 'Z') || ('0' ≤ c && c ≤ '9') || c = '_'

def isDigitChar (c : Char) : Bool := '0' ≤ c && c ≤ '9'

/-- `String.prototype.trim` (ASCII whitespace). -/
def trimChars (cs : List Char) : List Char :=
  ((cs.dropWhile isSpaceChar).reverse.dropWhile isSpaceChar).reverse

/-- Collapse every run of whitespace to a single `' '`
(the JS `.replace(/\s+/g, ' ')`). -/
def collapseSp : List Char → List Char
  | [] => []
  | [c] => if isSpaceChar c then [' '] else [c]
  | c :: c' :: rest =>
      if isSpaceChar c && isSpaceChar c' then collapseSp (c' :: rest)
      else (if isSpaceChar c then ' ' else c) :: collapseSp (c' :: rest)

def toLowerStr (s : String) : String := ⟨s.data.map Char.toLower⟩

/-- Does `pat` occur at the front of `cs`? -/
def matchesAt : List Char → List Char → Bool
  | [], _ => true
  | _ :: _, [] => false
  | k :: ks, c :: cs => k = c && matchesAt ks cs

/-- Substring test for lists of characters. -/
def containsSub (pat : List Char) : List Char → Bool
  | [] => matchesAt pat []
  | c :: cs => matchesAt pat (c :: cs) || containsSub pat cs

/-- JS `text.includes(pat)`. -/
def strContains (text pat : String) : Bool := containsSub pat.data text.data

/-- JS `String.prototype.split(' ')`: split on each single space,
keeping empty fragments. -/
def splitSp : List Char → List (List Char)
  | [] => [[]]
  | c :: rest =>
      if c = ' ' then [] :: splitSp rest
      else
        match splitSp rest with
        | h :: t => (c :: h) :: t
        | [] => [[c]]

/-- Digits to a natural number, as JS `parseInt` on a pure digit string. -/
def digitsToNat (cs : List Char) : Nat :=
  cs.foldl (fun n c => n * 10 + (c.toNat - '0'.toNat)) 0

/-- JS `Array.prototype.join(' ')`. -/
def joinSp : List String → String
  | [] => ""
  | [s] => s
  | s :: rest => s ++ " " ++ joinSp rest

/-- Association-list lookup with `String` keys (JS plain-object /
`Map` key access, insertion order preserved by the list). -/
def lookupStr {α : Type} : List (String × α) → String → Option α
  | [], _ => none
  | (k, v) :: rest, key => if k = key then some v else lookupStr rest key

/-! ## `OCPSearchEngine.cleanQuery` (src/js/search.js lines 288-294)

```
return query.trim()
  .replace(/[^\w\s\-\']/g, ' ')
  .replace(/\s+/g, ' ')
  .toLowerCase();
```
Note the disallowed characters are replaced by a space (after trimming),
so a query of pure punctuation normalizes to `" "`, not `""`. -/

def allowedChar (c : Char) : Bool :=
  isWordChar c || isSpaceChar c || c = '-' || c = '\''

def cleanQuery (query : String) : String :=
  toLowerStr ⟨collapseSp ((trimChars query.data).map (fun c => if allowedChar c then c else ' '))⟩

/-! ## `OCPSearchEngine.parseHeightQuery` (src/js/search.js lines 257-285)

The three regexes `/over (\d+)\s*(storey|floor|metre|meter)s?/i`,
`/under (\d+)\s*(storey|floor|metre|meter)s?/i` and
`/between (\d+) and (\d+)\s*(storey|floor|metre|meter)s?/i` are modelled by
scanning for the leftmost position where the whole pattern matches.  The
alternation only accepts the four full unit words; a bare `m` is not one of
them. -/

structure HeightQuery where
  min : Option Nat
  max : Option Nat
  deriving DecidableEq, Repr

def unitWords : List (List Char) := ["storey".data, "floor".data, "metre".data, "meter".data]

/-- Try the unit alternation followed by optional `s` at the front of `cs`;
return the captured unit word. -/
def matchUnit (cs : List Char) : Option String :=
  match unitWords.find? (fun w => matchesAt w cs) with
  | some w => some ⟨w⟩
  | none => none

/-- After the numeric capture: `\s*(storey|floor|metre|meter)s?`.
Returns the captured unit. -/
def matchSpacesUnit (cs : List Char) : Option String :=
  matchUnit (cs.dropWhile isSpaceChar)

/-- Try `(\d+)\s*(unit)s?` at the front; return (number, unit). -/
def matchNumUnit (cs : List Char) : Option (Nat × String) :=
  let ds := cs.takeWhile isDigitChar
  if ds.isEmpty then none
  else
    match matchSpacesUnit (cs.drop ds.length) with
    | some u => some (digitsToNat ds, u)
    | none => none

/-- Try the full `over`-pattern at the front of `cs`. -/
def tryOverAt (cs : List Char) : Option (Nat × String) :=
  if matchesAt "over ".data cs then matchNumUnit (cs.drop 5) else none

/-- Try the full `under`-pattern at the front of `cs`. -/
def tryUnderAt (cs : List Char) : Option (Nat × String) :=
  if matchesAt "under ".data cs then matchNumUnit (cs.drop 6) else none

/-- Try the full `between`-pattern at the front of `cs`:
`between (\d+) and (\d+)\s*(unit)s?`. -/
def tryBetweenAt (cs : List Char) : Option (Nat × Nat × String) :=
  if matchesAt "between ".data cs then
    let rest := cs.drop 8
    let d1 := rest.takeWhile isDigitChar
    if d1.isEmpty then none
    else
      let rest2 := rest.drop d1.length
      if matchesAt " and ".data rest2 then
        let rest3 := rest2.drop 5
        match matchNumUnit rest3 with
        | some (n2, u) => some (digitsToNat d1, n2, u)
        | none => none
      else none
  else none

/-- Leftmost-match scan for a pattern matcher. -/
def scanFor {α : Type} (tryAt : List Char → Option α) : List Char → Option α
  | [] => tryAt []
  | c :: cs =>
      match tryAt (c :: cs) with
      | some r => some r
      | none => scanFor tryAt cs

/-- `match[2].includes('storey') || match[2].includes('floor') ? 3 : 1`;
the capture is always one of the four full unit words. -/
def unitMultiplier (u : String) : Nat :=
  if strContains u "storey" || strContains u "floor" then 3 else 1

def parseHeightQuery (queryLower : String) : Option HeightQuery :=
  match scanFor tryOverAt queryLower.data with
  | some (n, u) => some ⟨some (n * unitMultiplier u), none⟩
  | none =>
    match scanFor tryUnderAt queryLower.data with
    | some (n, u) => some ⟨none, some (n * unitMultiplier u)⟩
    | none =>
      match scanFor tryBetweenAt queryLower.data with
      | some (n1, n2, u) => some ⟨some (n1 * unitMultiplier u), some (n2 * unitMultiplier u)⟩
      | none => none

/-! ## `OCPSearchEngine.isSimpleQuery` (src/js/search.js lines 225-234) -/

/-- `/^(residential|commercial|mixed.?use|industrial)$/i` applied to `t`
(already a full-string test).  `.` matches any character except a line
terminator. -/
def simplePattern1 (t : List Char) : Bool :=
  let s := t.map Char.toLower
  s = "residential".data || s = "commercial".data || s = "industrial".data ||
  s = "mixeduse".data ||
  (s.length = 9 && s.take 5 = "mixed".data && s.drop 6 = "use".data &&
    (match s.get? 5 with | some c => !(c = '\n' || c = '\x0d') | none => false))

/-- `/^[A-Z]{1,5}\d*$/` (case sensitive). -/
def simplePattern2 (t : List Char) : Bool :=
  let ups := t.takeWhile (fun c => 'A' ≤ c && c ≤ 'Z')
  decide (1 ≤ ups.length) && decide (ups.length ≤ 5) &&
    (t.drop ups.length).all isDigitChar

/-- `/^\d+\s*(storey|floor|metre|meter)s?$/i`. -/
def simplePattern3 (t : List Char) : Bool :=
  let s := t.map Char.toLower
  let ds := s.takeWhile isDigitChar
  if ds.isEmpty then false
  else
    let rest := (s.drop ds.length).dropWhile isSpaceChar
    match unitWords.find? (fun w => matchesAt w rest) with
    | some w =>
        let tail := rest.drop w.length
        tail = [] || tail = ['s']
    | none => false

/-- `/^(height|density|FAR|zoning|land.?use)$/i`. -/
def simplePattern4 (t : List Char) : Bool :=
  let s := t.map Char.toLower
  s = "height".data || s = "density".data || s = "far".data || s = "zoning".data ||
  s = "landuse".data ||
  (s.length = 8 && s.take 4 = "land".data && s.drop 5 = "use".data &&
    (match s.get? 4 with | some c => !(c = '\n' || c = '\x0d') | none => false))

def isSimpleQuery (query : String) : Bool :=
  let t := trimChars query.data
  simplePattern1 t || simplePattern2 t || simplePattern3 t || simplePattern4 t

/-! ## Data model (spec section 3; loaded JSON tables of `OCPDataHandler`)

Tables are insertion-ordered association lists, mirroring
`Object.entries` iteration order over the parsed JSON objects. -/

structure LandUseDesignation where
  name : String
  description : String
  category : String
  principalUses : Option (List String)
  complementaryUses : Option (List String)
  deriving DecidableEq, Repr

structure ZoningDistrict where
  name : String
  maxHeight : Option String
  deriving DecidableEq, Repr

structure Policy where
  title : String
  text : String
  deriving DecidableEq, Repr

structure OCPData where
  landUse : List (String × LandUseDesignation)
  zoning : List (String × List (String × ZoningDistrict))
  policies : List (String × List (String × Policy))
  deriving DecidableEq, Repr

/-- The data-repository half of `OCPDataHandler` (src/unnamed/part_002):
`isLoaded` is false until `loadAllData` finishes, and every accessor
degrades to null/empty while it is false. -/
structure DataHandler where
  isLoaded : Bool
  data : OCPData
  deriving DecidableEq, Repr

/-- A duck-typed result item (the ad hoc objects pushed by
`searchByKeywords`, `localSearch`, `processAIResults`, ...).  Fields that
some constructors leave `undefined` are `Option`s; the opaque `data`
back-reference of the source objects is not modelled (no claim reads it). -/
structure ResultItem where
  rtype : String
  code : Option String := none
  name : String
  description : Option String := none
  category : Option String := none
  matchReason : Option String := none
  height : Option String := none
  deriving DecidableEq, Repr

/-! ## `OCPDataHandler` accessors (src/unnamed/part_002) -/

/-- `getLandUseInfo` (part_002 lines 63-71). -/
def getLandUseInfo (d : DataHandler) (designationCode : String) : Option LandUseDesignation :=
  if !d.isLoaded then none else lookupStr d.data.landUse designationCode

/-- `getZoningInfo` (part_002 lines 74-87): first category containing the
code wins. -/
def findZone : List (String × List (String × ZoningDistrict)) → String → Option ZoningDistrict
  | [], _ => none
  | (_, cat) :: rest, code =>
      match lookupStr cat code with
      | some z => some z
      | none => findZone rest code

def getZoningInfo (d : DataHandler) (zoneCode : String) : Option ZoningDistrict :=
  if !d.isLoaded then none else findZone d.data.zoning zoneCode

/-- `searchByCategory` (part_002 lines 90-105): filter the designations by
category, keeping `(code, designation)` in insertion order. -/
def searchByCategory (d : DataHandler) (category : String) : List (String × LandUseDesignation) :=
  if !d.isLoaded then [] else d.data.landUse.filter (fun cd => cd.2.category = category)

/-- `getPoliciesByCategory` (part_002 lines 175-187). -/
def getPoliciesByCategory (d : DataHandler) (category : String) : List (String × Policy) :=
  if !d.isLoaded then []
  else
    match lookupStr d.data.policies category with
    | some cat => cat
    | none => []

/-! ## `OCPDataHandler.searchByKeywords` (src/unnamed/part_002 lines 108-155)

The searchable text of a land-use designation is
`` `${name} ${description} ${principalUses?.join(' ')} ${complementaryUses?.join(' ')}` ``
lower-cased — the `category` field is NOT part of it.  A missing uses list
interpolates as the literal string `"undefined"`. -/

def optJoinSp : Option (List String) → String
  | some l => joinSp l
  | none => "undefined"

def landUseSearchText (des : LandUseDesignation) : String :=
  toLowerStr (des.name ++ " " ++ des.description ++ " " ++
    optJoinSp des.principalUses ++ " " ++ optJoinSp des.complementaryUses)

/-- The searchable text of a policy: `` `${title} ${text}` `` lower-cased. -/
def policySearchText (p : Policy) : String :=
  toLowerStr (p.title ++ " " ++ p.text)

/-- Modelled from the spec (claim C8's wording, for comparison only): the
land-use searchable text as the claim describes it — name, description,
category, and the principal/complementary use lists. -/
def landUseSearchTextSpec (des : LandUseDesignation) : String :=
  toLowerStr (des.name ++ " " ++ des.description ++ " " ++ des.category ++ " " ++
    optJoinSp des.principalUses ++ " " ++ optJoinSp des.complementaryUses)

/-- `query.toLowerCase().split(' ')`. -/
def keywordsOf (query : String) : List String :=
  (splitSp (toLowerStr query).data).map (fun cs => ⟨cs⟩)

/-- `keywords.some(keyword => searchText.includes(keyword))`. -/
def keywordHit (keywords : List String) (searchText : String) : Bool :=
  keywords.any (fun k => strContains searchText k)

def mkLandUseItem (code : String) (des : LandUseDesignation) : ResultItem :=
  { rtype := "land-use", code := some code, name := des.name,
    description := some des.description, category := some des.category }

def mkPolicyItem (catKey polKey : String) (p : Policy) : ResultItem :=
  { rtype := "policy", code := some (catKey ++ "." ++ polKey), name := p.title,
    description := some p.text, category := some catKey }

def searchByKeywords (d : DataHandler) (query : String) : List ResultItem :=
  if !d.isLoaded then []
  else
    let keywords := keywordsOf query
    ((d.data.landUse.filter (fun cd => keywordHit keywords (landUseSearchText cd.2))).map
        (fun cd => mkLandUseItem cd.1 cd.2)) ++
    (d.data.policies.flatMap (fun cp =>
      (cp.2.filter (fun pp => keywordHit keywords (policySearchText pp.2))).map
        (fun pp => mkPolicyItem cp.1 pp.1 pp.2)))

/-! ## `OCPDataHandler.searchByHeight` (src/unnamed/part_002 lines 247-289) -/

/-- `parseHeight` (part_002 lines 279-282): `/(\d+)m/` — the leftmost maximal
digit run immediately followed by `m`. -/
def parseHeightAt (cs : List Char) : Option Nat :=
  let ds := cs.takeWhile isDigitChar
  if ds.isEmpty then none
  else
    match cs.drop ds.length with
    | 'm' :: _ => some (digitsToNat ds)
    | _ => none

def parseHeight (heightString : String) : Option Nat :=
  scanFor parseHeightAt heightString.data

/-- `isHeightInRange` (part_002 lines 285-289). -/
def isHeightInRange (height : Nat) (minHeight maxHeight : Option Nat) : Bool :=
  match minHeight with
  | some minH => if height < minH then false else
      match maxHeight with
      | some maxH => decide (height ≤ maxH)
      | none => true
  | none =>
      match maxHeight with
      | some maxH => decide (height ≤ maxH)
      | none => true

def mkHeightItem (zoneKey : String) (zone : ZoningDistrict) (catKey : String) : ResultItem :=
  { rtype := "zoning", code := some zoneKey, name := zone.name,
    height := zone.maxHeight, category := some catKey }

def searchByHeight (d : DataHandler) (minHeight maxHeight : Option Nat) : List ResultItem :=
  if !d.isLoaded then []
  else
    d.data.zoning.flatMap (fun cp =>
      cp.2.filterMap (fun zp =>
        match zp.2.maxHeight with
        | some hs =>
            if hs = "" then none   -- `if (zone.maxHeight)`: empty string is falsy
            else
              match parseHeight hs with
              | some h =>
                  if isHeightInRange h minHeight maxHeight then
                    some (mkHeightItem zp.1 zp.2 cp.1)
                  else none
              | none => none
        | none => none))

/-! ## `OCPDataHandler.isWithinNewWestminster` / `getLocationInfo`
(src/unnamed/part_002 lines 190-235): bounding-box version used by the
search engine's location-specific results. -/

def isWithinNewWestminsterP2 (lat lng : ℚ) : Bool :=
  decide ((4919 : ℚ)/100 ≤ lat) && decide (lat ≤ (4923 : ℚ)/100) &&
  decide (-(12295 : ℚ)/100 ≤ lng) && decide (lng ≤ -(12288 : ℚ)/100)

structure LocationInfo where
  lat : ℚ
  lng : ℚ
  withinBoundary : Bool
  landUse : Option LandUseDesignation
  zoning : Option ZoningDistrict
  policies : List (String × Policy)
  deriving DecidableEq, Repr

def getLocationInfo (d : DataHandler) (lat lng : ℚ) : LocationInfo :=
  let within := isWithinNewWestminsterP2 lat lng
  if within then
    let lu := if lat > (4921 : ℚ)/100 then getLandUseInfo d "RD"
              else if lat > (49205 : ℚ)/1000 then getLandUseInfo d "RM"
              else getLandUseInfo d "MH"
    let z := if lat > (4921 : ℚ)/100 then getZoningInfo d "R1"
             else if lat > (49205 : ℚ)/1000 then getZoningInfo d "RM1"
             else getZoningInfo d "MU2"
    { lat := lat, lng := lng, withinBoundary := within, landUse := lu, zoning := z,
      policies := (getPoliciesByCategory d "economy").take 2 }
  else
    { lat := lat, lng := lng, withinBoundary := within, landUse := none, zoning := none,
      policies := [] }

/-! ## Boundary geometry (src/js/data-handler.js lines 91-132)

A ring is a list of `(longitude, latitude)` pairs (GeoJSON coordinate
order); coordinates are modelled as rationals. -/

/-- One edge step of the ray-casting loop of `isPointInPolygon`:
the loop visits index pairs `(i, j)` with `j = i - 1` and the initial
`j = length - 1`, i.e. each vertex paired with its predecessor
(cyclically). -/
def edgePairs (polygon : List (ℚ × ℚ)) : List ((ℚ × ℚ) × (ℚ × ℚ)) :=
  match polygon.getLast? with
  | none => []
  | some lastP => polygon.zip (lastP :: polygon)

/-- `isPointInPolygon` (data-handler.js lines 91-107), standard ray casting:
```
if (((yi > lat) !== (yj > lat)) &&
    (lng < (xj - xi) * (lat - yi) / (yj - yi) + xi)) inside = !inside;
```
The division is only reached when `yi > lat` and `yj > lat` disagree,
which forces `yi ≠ yj`. -/
def isPointInPolygon (lat lng : ℚ) (polygon : List (ℚ × ℚ)) : Bool :=
  (edgePairs polygon).foldl
    (fun inside e =>
      let xi := e.1.1
      let yi := e.1.2
      let xj := e.2.1
      let yj := e.2.2
      if (decide (yi > lat) != decide (yj > lat)) &&
         decide (lng < (xj - xi) * (lat - yi) / (yj - yi) + xi)
      then !inside else inside)
    false

/-- The fixed fallback bounding box of `isWithinNewWestminster`
(data-handler.js lines 113-121). -/
def fallbackBounds (lat lng : ℚ) : Bool :=
  decide ((4919 : ℚ)/100 ≤ lat) && decide (lat ≤ (4923 : ℚ)/100) &&
  decide (-(12295 : ℚ)/100 ≤ lng) && decide (lng ≤ -(12288 : ℚ)/100)

/-- `isWithinNewWestminster` (data-handler.js lines 110-132):
`boundaryGeometry` is `none` when `processBoundaryGeometry` never ran,
`some rings` afterwards; an unavailable or empty ring list falls back to
the bounding box, otherwise the point is inside iff ANY ring's ray-casting
test reports it inside (hole rings are ordinary rings). -/
def isWithinNewWestminster (boundaryGeometry : Option (List (List (ℚ × ℚ)))) (lat lng : ℚ) : Bool :=
  match boundaryGeometry with
  | none => fallbackBounds lat lng
  | some rings =>
      if rings.length = 0 then fallbackBounds lat lng
      else rings.any (fun ring => isPointInPolygon lat lng ring)

/-! ## `OCPSearchEngine.detectCategories` (src/js/search.js lines 237-254) -/

def categoryMap : List (String × List String) :=
  [("residential", ["residential", "housing", "homes", "apartments", "condos", "houses"]),
   ("mixed-use", ["mixed", "mixed-use", "mixed use", "combined"]),
   ("commercial", ["commercial", "retail", "business", "shops", "stores"]),
   ("employment", ["employment", "industrial", "work", "jobs", "office"]),
   ("environmental", ["park", "green", "environmental", "nature"])]

def detectCategories (queryLower : String) : List String :=
  (categoryMap.filter (fun ck => ck.2.any (fun k => strContains queryLower k))).map
    (fun ck => ck.1)

/-! ## `OCPSearchEngine.removeDuplicates` (src/js/search.js lines 297-307) -/

/-- `` `${result.type}_${result.code || result.name}` `` — an absent or
empty (falsy) code falls back to the name. -/
def dedupKey (r : ResultItem) : String :=
  r.rtype ++ "_" ++
    (match r.code with
     | some c => if c = "" then r.name else c
     | none => r.name)

def removeDuplicatesAux : List String → List ResultItem → List ResultItem
  | _, [] => []
  | seen, r :: rest =>
      if seen.contains (dedupKey r) then removeDuplicatesAux seen rest
      else r :: removeDuplicatesAux (dedupKey r :: seen) rest

def removeDuplicates (results : List ResultItem) : List ResultItem :=
  removeDuplicatesAux [] results

/-! ## SearchResult and the search engine state (src/js/search.js) -/

structure SearchResult where
  results : List ResultItem
  method : String
  error : Option String := none
  suggestion : Option String := none
  totalFound : Option Nat := none
  query : Option String := none
  processingTime : Option Nat := none
  fallback : Option Bool := none
  aiError : Option String := none
  aiResponse : Option String := none
  confidence : Option ℚ := none
  citations : Option (List String) := none
  cached : Option Nat := none
  deriving DecidableEq, Repr

structure HistoryEntry where
  query : String
  method : String
  timestamp : Nat
  deriving DecidableEq, Repr

structure Location where
  lat : ℚ
  lng : ℚ
  deriving DecidableEq, Repr

/-- The destructured `options` of `search` with the source defaults. -/
structure SearchOptions where
  location : Option Location := none
  useAI : String := "auto"
  maxResults : Nat := 10
  deriving DecidableEq, Repr

/-- Mutable state of an `OCPSearchEngine` instance.  `now` stands for
`Date.now()`; `aiCalls`/`localCalls` instrument how often the AI proxy
and the local search are invoked (for the cache claims). -/
structure EngineState where
  searchHistory : List HistoryEntry
  searchCache : List (String × SearchResult)
  aiCalls : Nat
  localCalls : Nat
  now : Nat
  deriving DecidableEq, Repr

def maxHistoryItems : Nat := 20
def maxCacheItems : Nat := 50

/-- JS `Map.prototype.set`: overwrite in place if present, else append
(insertion order). -/
def mapSet : List (String × SearchResult) → String → SearchResult → List (String × SearchResult)
  | [], k, v => [(k, v)]
  | (k', v') :: rest, k, v =>
      if k' = k then (k, v) :: rest else (k', v') :: mapSet rest k v

def cacheGet (cache : List (String × SearchResult)) (key : String) : Option SearchResult :=
  lookupStr cache key

/-- `cacheResult` (search.js lines 310-319) minus the timestamp stamping,
which `finishSearch` performs on the value first: evict the oldest-inserted
entry when at capacity, then insert. -/
def cacheInsert (cache : List (String × SearchResult)) (key : String) (r : SearchResult) :
    List (String × SearchResult) :=
  let cache' := if maxCacheItems ≤ cache.length then cache.tail else cache
  mapSet cache' key r

/-- `addToHistory` (search.js lines 322-332): unshift, then truncate to
`maxHistoryItems` when over capacity. -/
def addToHistory (history : List HistoryEntry) (query method : String) (timestamp : Nat) :
    List HistoryEntry :=
  let h := { query := query, method := method, timestamp := timestamp } :: history
  if maxHistoryItems < h.length then h.take maxHistoryItems else h

/-! ## `OCPSearchEngine.localSearch` (src/js/search.js lines 87-145) -/

def mkCategoryItem (code : String) (des : LandUseDesignation) (category : String) : ResultItem :=
  { rtype := "land-use", code := some code, name := des.name,
    description := some des.description, category := some des.category,
    matchReason := some ("Category: " ++ category) }

def mkLocationItem (lu : LandUseDesignation) : ResultItem :=
  { rtype := "location-specific", name := "Current Location: " ++ lu.name,
    description := some lu.description, matchReason := some "Your selected location" }

/-- `Math.floor(maxResults * 0.6)`; for the integer arguments in range this
equals `maxResults * 6 / 10` in natural division. -/
def keywordCap (maxResults : Nat) : Nat := maxResults * 6 / 10

def localSearch (d : DataHandler) (query : String) (location : Option Location)
    (maxResults : Nat) (now : Nat) : SearchResult :=
  let queryLower := toLowerStr query
  let keywordPart := (searchByKeywords d query).take (keywordCap maxResults)
  let categoryPart := (detectCategories queryLower).flatMap
    (fun c => ((searchByCategory d c).take 2).map (fun cd => mkCategoryItem cd.1 cd.2 c))
  let heightPart :=
    match parseHeightQuery queryLower with
    | some hq => (searchByHeight d hq.min hq.max).take 3
    | none => []
  let base := keywordPart ++ (categoryPart ++ heightPart)
  let withLocation :=
    match location with
    | some loc =>
        match (getLocationInfo d loc.lat loc.lng).landUse with
        | some lu => mkLocationItem lu :: base
        | none => base
    | none => base
  let uniqueResults := removeDuplicates withLocation
  { results := uniqueResults.take maxResults, method := "local",
    totalFound := some uniqueResults.length, query := some query,
    processingTime := some now }

/-! ## `OCPSearchEngine.aiSearch` / `processAIResults`
(src/js/search.js lines 148-222)

The HTTP fetch against the serverless proxy is an external effect; its
outcome is a `FetchOutcome` oracle.  `prepareContextForAI` only shapes the
request body and cannot influence the modelled response, so it is not
replayed here. -/

structure AIResult where
  answer : Option String := none
  confidence : Option ℚ := none
  citations : Option (List String) := none
  structuredResults : Option (List ResultItem) := none
  mentionedAreas : Option (List String) := none
  deriving DecidableEq, Repr

inductive FetchOutcome where
  | networkError (msg : String)
  | httpError (status : Nat) (statusText : String)
  | badJson (msg : String)
  | ok (body : AIResult)
  deriving DecidableEq, Repr

def mkAiMentionedItem (area : String) (info : LandUseDesignation) : ResultItem :=
  { rtype := "ai-mentioned", code := some area, name := info.name,
    description := some info.description, matchReason := some "Mentioned by AI" }

def mkAiAnswerItem (answer : String) : ResultItem :=
  { rtype := "ai-answer", name := "AI Assistant Response",
    description := some answer, matchReason := some "Natural language processing" }

def processAIResults (d : DataHandler) (aiResult : AIResult) (maxResults : Nat) :
    List ResultItem :=
  let structured :=
    match aiResult.structuredResults with
    | some l => l.take maxResults
    | none => []
  let mentioned :=
    match aiResult.mentionedAreas with
    | some areas => areas.filterMap
        (fun area => (getLandUseInfo d area).map (fun info => mkAiMentionedItem area info))
    | none => []
  let base := structured ++ mentioned
  let withAnswer :=
    match aiResult.answer with
    | some ans => if ans = "" then base else mkAiAnswerItem ans :: base
    | none => base
  withAnswer.take maxResults

def aiSearch (d : DataHandler) (fetch : FetchOutcome) (query : String)
    (maxResults : Nat) (now : Nat) : Except String SearchResult :=
  match fetch with
  | .networkError msg => .error msg
  | .httpError status statusText =>
      .error ("AI search failed: " ++ toString status ++ " " ++ statusText)
  | .badJson msg => .error msg
  | .ok aiResult =>
      .ok { results := processAIResults d aiResult maxResults, method := "ai",
            aiResponse := aiResult.answer,
            confidence := some
              (match aiResult.confidence with
               | some c => if c = 0 then (4 : ℚ)/5 else c
               | none => (4 : ℚ)/5),
            citations := some (aiResult.citations.getD []),
            query := some query, processingTime := some now }

/-! ## `OCPSearchEngine.search` (src/js/search.js lines 27-84) -/

/-- `` `${cleanQuery}_${location?.lat || ''}_${location?.lng || ''}` ``.
A zero coordinate is falsy and renders as the empty string; the numeric
rendering of other coordinates differs from JS in spelling but is
injective on rationals, which is all the cache claims use. -/
def cacheKeyOf (cleanedQuery : String) (location : Option Location) : String :=
  cleanedQuery ++ "_" ++
    (match location with
     | some l => if l.lat = 0 then "" else toString l.lat
     | none => "") ++ "_" ++
    (match location with
     | some l => if l.lng = 0 then "" else toString l.lng
     | none => "")

def emptyQueryResult : SearchResult :=
  { results := [], method := "none", error := some "Empty query" }

def errorResult (msg : String) : SearchResult :=
  { results := [], method := "error", error := some msg,
    suggestion := some "Try simplifying your search or check your internet connection." }

/-- The branch condition of line 54:
`useAI === 'local' || (useAI === 'auto' && this.isSimpleQuery(cleanQuery))`. -/
def dispatchIsLocal (opts : SearchOptions) (cleanedQuery : String) : Bool :=
  opts.useAI = "local" || (opts.useAI = "auto" && isSimpleQuery cleanedQuery)

/-- The awaited outcomes of the two result-producing calls a single
`search` invocation can make.  A JS `await` may reject with an exception,
hence `Except`. -/
structure DispatchOutcomes where
  localOutcome : Except String SearchResult
  aiOutcome : Except String SearchResult

/-- Lines 68-74: stamp the result (`result.cached = Date.now()`), store it
in the cache, append to the history, and return the stamped result. -/
def finishSearch (key cleanedQuery : String) (r : SearchResult) (st : EngineState) :
    SearchResult × EngineState :=
  let stamped := { r with cached := some st.now }
  (stamped,
   { st with
       searchCache := cacheInsert st.searchCache key stamped,
       searchHistory := addToHistory st.searchHistory cleanedQuery stamped.method st.now })

/-- `search` with the two awaited calls abstracted as outcomes: normalize,
empty-query early return, cache lookup, dispatch (with the inner
AI-failure → local-fallback catch), outer catch converting an escaped
exception into an error-shaped result. -/
def searchGen (outs : DispatchOutcomes) (query : String) (opts : SearchOptions)
    (st : EngineState) : SearchResult × EngineState :=
  let cq := cleanQuery query
  if cq = "" then (emptyQueryResult, st)
  else
    let key := cacheKeyOf cq opts.location
    match cacheGet st.searchCache key with
    | some cachedResult => (cachedResult, st)
    | none =>
        if dispatchIsLocal opts cq then
          let st1 := { st with localCalls := st.localCalls + 1 }
          match outs.localOutcome with
          | .ok r => finishSearch key cq r st1
          | .error e => (errorResult e, st1)
        else
          let st1 := { st with aiCalls := st.aiCalls + 1 }
          match outs.aiOutcome with
          | .ok r => finishSearch key cq r st1
          | .error aiErr =>
              let st2 := { st1 with localCalls := st1.localCalls + 1 }
              match outs.localOutcome with
              | .ok r =>
                  finishSearch key cq { r with fallback := some true, aiError := some aiErr } st2
              | .error e => (errorResult e, st2)

/-- The concrete `search`: the local call is the pure `localSearch` (it
cannot throw), the AI call is `aiSearch` driven by the fetch oracle. -/
def search (d : DataHandler) (fetch : FetchOutcome) (query : String)
    (opts : SearchOptions) (st : EngineState) : SearchResult × EngineState :=
  searchGen
    { localOutcome := .ok (localSearch d (cleanQuery query) opts.location opts.maxResults st.now),
      aiOutcome := aiSearch d fetch (cleanQuery query) opts.maxResults st.now }
    query opts st

/-! ## `OCPDataHandler.initialize` (src/unnamed/part_002 lines 17-24 and
src/js/data-handler.js lines 18-25, identical logic)

```
if (this.loadingPromise) return this.loadingPromise;
this.loadingPromise = this.loadAllData();
return this.loadingPromise;
```
Promise identity is modelled by a numeric id; `loadCalls` counts how many
times `loadAllData` (the underlying data fetch) actually ran. -/

structure LoaderState where
  loadingPromise : Option Nat
  loadCalls : Nat
  nextId : Nat
  deriving DecidableEq, Repr

def initData (st : LoaderState) : Nat × LoaderState :=
  match st.loadingPromise with
  | some p => (p, st)
  | none =>
      (st.nextId,
       { loadingPromise := some st.nextId, loadCalls := st.loadCalls + 1,
         nextId := st.nextId + 1 })

/-- `n` successive `initialize` calls, collecting the returned promises. -/
def initIter : Nat → LoaderState → List Nat × LoaderState
  | 0, st => ([], st)
  | n + 1, st =>
      let (p, st') := initData st
      let (ps, st'') := initIter n st'
      (p :: ps, st'')

/-! ## Concrete fixtures used by witnesses and counterexamples -/

def emptyOCPData : OCPData := { landUse := [], zoning := [], policies := [] }

/-- A data handler before any load completed (all accessors degrade). -/
def d0 : DataHandler := { isLoaded := false, data := emptyOCPData }

def st0 : EngineState :=
  { searchHistory := [], searchCache := [], aiCalls := 0, localCalls := 0, now := 0 }

def opts0 : SearchOptions := {}

def aiR0 : AIResult := { answer := some "Parks are mostly downtown." }

/-- A designation whose category is `residential` but whose name,
description and use lists never mention it. -/
def desC8 : LandUseDesignation :=
  { name := "Gold", description := "rare metal", category := "residential",
    principalUses := some [], complementaryUses := some [] }

def dC8 : DataHandler :=
  { isLoaded := true,
    data := { landUse := [("CX", desC8)], zoning := [], policies := [] } }

/-- A loaded handler with one designation and one policy, for the C8
witness. -/
def desW : LandUseDesignation :=
  { name := "Residential Detached", description := "low density housing",
    category := "residential", principalUses := some ["single detached dwellings"],
    complementaryUses := some ["home business"] }

def polW : Policy := { title := "Economy 1.1", text := "support local retail" }

def dW : DataHandler :=
  { isLoaded := true,
    data := { landUse := [("RD", desW)], zoning := [],
              policies := [("economy", [("1.1", polW)])] } }

/-- The unit square as a closed boundary ring (`(lng, lat)` pairs). -/
def sqRing : List (ℚ × ℚ) := [(0, 0), (1, 0), (1, 1), (0, 1), (0, 0)]

/-! ## Helper lemmas -/

theorem lookupStr_mapSet_self (cache : List (String × SearchResult)) (key : String)
    (v : SearchResult) : lookupStr (mapSet cache key v) key = some v := by
  induction cache with
  | nil => simp [mapSet, lookupStr]
  | cons kv rest ih =>
      by_cases h : kv.1 = key
      · simp [mapSet, lookupStr, h]
      · simpa [mapSet, lookupStr, h] using ih

theorem cacheGet_cacheInsert_self (cache : List (String × SearchResult)) (key : String)
    (v : SearchResult) : cacheGet (cacheInsert cache key v) key = some v := by
  unfold cacheGet cacheInsert
  exact lookupStr_mapSet_self _ key v

theorem addToHistory_eq_take (history : List HistoryEntry) (query method : String)
    (timestamp : Nat) :
    addToHistory history query method timestamp =
      ({ query := query, method := method, timestamp := timestamp } :: history).take
        maxHistoryItems := by
  unfold addToHistory
  by_cases h : maxHistoryItems <
      ({ query := query, method := method, timestamp := timestamp } :: history).length
  · simp [h]
  · simp only [h, if_false]
    exact (List.take_of_length_le (Nat.le_of_not_lt h)).symm

/-- After a fresh (non-cached) dispatch, `search` returns a stamped result
that was just inserted in the cache and recorded in the history. -/
theorem search_miss_shape (d : DataHandler) (fetch : FetchOutcome) (q : String)
    (opts : SearchOptions) (st : EngineState)
    (hq : cleanQuery q ≠ "")
    (hmiss : cacheGet st.searchCache (cacheKeyOf (cleanQuery q) opts.location) = none) :
    ∃ r : SearchResult,
      (search d fetch q opts st).1 = { r with cached := some st.now } ∧
      (search d fetch q opts st).2.searchCache =
        cacheInsert st.searchCache (cacheKeyOf (cleanQuery q) opts.location)
          { r with cached := some st.now } ∧
      (search d fetch q opts st).2.searchHistory =
        addToHistory st.searchHistory (cleanQuery q) r.method st.now := by
  unfold search searchGen
  rw [if_neg hq]
  simp only [hmiss]
  cases hdl : dispatchIsLocal opts (cleanQuery q) with
  | true =>
      simp only [if_true, finishSearch]
      exact ⟨localSearch d (cleanQuery q) opts.location opts.maxResults st.now, rfl, rfl, rfl⟩
  | false =>
      simp only [Bool.false_eq_true, if_false]
      cases hai : aiSearch d fetch (cleanQuery q) opts.maxResults st.now with
      | ok r =>
          simp only [finishSearch]
          exact ⟨r, rfl, rfl, rfl⟩
      | error e =>
          simp only [finishSearch]
          exact ⟨{ localSearch d (cleanQuery q) opts.location opts.maxResults st.now with
                    fallback := some true, aiError := some e }, rfl, rfl, rfl⟩

/-- Every `search` call with a nonempty normalized query ends with its own
returned value stored in the cache under the call's cache key. -/
theorem search_val_cached (d : DataHandler) (fetch : FetchOutcome) (q : String)
    (opts : SearchOptions) (st : EngineState)
    (hq : cleanQuery q ≠ "") :
    cacheGet (search d fetch q opts st).2.searchCache
        (cacheKeyOf (cleanQuery q) opts.location) =
      some (search d fetch q opts st).1 := by
  cases hlk : cacheGet st.searchCache (cacheKeyOf (cleanQuery q) opts.location) with
  | some v =>
      have hres : search d fetch q opts st = (v, st) := by
        unfold search searchGen
        rw [if_neg hq]
        simp only [hlk]
      rw [hres]
      exact hlk
  | none =>
      obtain ⟨r, hval, hcache, -⟩ := search_miss_shape d fetch q opts st hq hlk
      rw [hcache, hval, cacheGet_cacheInsert_self]

/-- A `search` call answered from the cache leaves the whole state
unchanged. -/
theorem search_hit_state (d : DataHandler) (fetch : FetchOutcome) (q : String)
    (opts : SearchOptions) (st : EngineState) (v : SearchResult)
    (hq : cleanQuery q ≠ "")
    (hhit : cacheGet st.searchCache (cacheKeyOf (cleanQuery q) opts.location) = some v) :
    search d fetch q opts st = (v, st) := by
  unfold search searchGen
  rw [if_neg hq]
  simp only [hhit]

theorem flatMap_sublist {α β : Type} (l : List α) (f g : α → List β)
    (h : ∀ x, (f x).Sublist (g x)) : (l.flatMap f).Sublist (l.flatMap g) := by
  induction l with
  | nil => simp
  | cons a rest ih => simpa using (h a).append ih

theorem flatMap_length_le_two_mul {α β : Type} (l : List α) (f : α → List β)
    (h : ∀ x, (f x).length ≤ 2) : (l.flatMap f).length ≤ 2 * l.length := by
  induction l with
  | nil => simp
  | cons a rest ih =>
      simp only [List.flatMap_cons, List.length_append, List.length_cons]
      calc (f a).length + (rest.flatMap f).length ≤ 2 + 2 * rest.length :=
            Nat.add_le_add (h a) ih
        _ = 2 * (rest.length + 1) := by ring

theorem initIter_loaded (n : Nat) (st : LoaderState) (p : Nat)
    (h : st.loadingPromise = some p) :
    initIter n st = (List.replicate n p, st) := by
  induction n with
  | zero => simp [initIter]
  | succ n ih => simp [initIter, initData, h, ih, List.replicate_succ]

/-! ## Claims -/

/-- C1 counterexample: `"parks and recreation"` is not a simple query, so it
takes the AI path; the fetch rejects, yet the call resolves to a
local-fallback result (`method = "local"`, `fallback = true`), not to the
error-shaped `{results: [], method: "error", ...}` the claim demands for
any exception raised during the call. -/
theorem c1_counterexample :
    (search d0 (.networkError "AI proxy unreachable") "parks and recreation" opts0 st0).1.method
        = "local" ∧
    (search d0 (.networkError "AI proxy unreachable") "parks and recreation" opts0 st0).1.fallback
        = some true ∧
    (search d0 (.networkError "AI proxy unreachable") "parks and recreation" opts0 st0).1.method
        ≠ "error" := by
  decide

/-- C1 (amended): `search` never rejects; an exception raised on the AI
path is first handled by the inner catch (local fallback).  Only an
exception that escapes dispatch — a local-path failure, or an AI failure
whose local fallback also fails — reaches the top-level catch and is
converted to `{results := [], method := "error", error := msg}`, leaving
cache and history untouched. -/
theorem c1_uncaught_exception_error_shape (outs : DispatchOutcomes) (q : String)
    (opts : SearchOptions) (st : EngineState) (e : String)
    (hq : cleanQuery q ≠ "")
    (hmiss : cacheGet st.searchCache (cacheKeyOf (cleanQuery q) opts.location) = none)
    (hesc : (dispatchIsLocal opts (cleanQuery q) = true ∧ outs.localOutcome = .error e) ∨
            (dispatchIsLocal opts (cleanQuery q) = false ∧
             (∃ e0, outs.aiOutcome = .error e0) ∧ outs.localOutcome = .error e)) :
    (searchGen outs q opts st).1 = errorResult e ∧
    (searchGen outs q opts st).2.searchCache = st.searchCache ∧
    (searchGen outs q opts st).2.searchHistory = st.searchHistory := by
  unfold searchGen
  rw [if_neg hq]
  simp only [hmiss]
  rcases hesc with ⟨hdl, hloc⟩ | ⟨hdl, ⟨e0, hai⟩, hloc⟩
  · simp only [hdl, if_true, hloc]
    refine ⟨?_, ?_, ?_⟩ <;> trivial
  · simp only [hdl, Bool.false_eq_true, if_false, hai, hloc]
    refine ⟨?_, ?_, ?_⟩ <;> trivial

/-- C1 witness: a local-path dispatch whose awaited call throws. -/
theorem c1_witness :
    (cleanQuery "residential" ≠ "" ∧
     cacheGet st0.searchCache (cacheKeyOf (cleanQuery "residential") none) = none ∧
     (dispatchIsLocal { useAI := "local" } (cleanQuery "residential") = true ∧
      (Except.error "boom" : Except String SearchResult) = .error "boom")) ∧
    ((searchGen ⟨.error "boom", .error "boom"⟩ "residential" { useAI := "local" } st0).1 =
        errorResult "boom" ∧
     (searchGen ⟨.error "boom", .error "boom"⟩ "residential" { useAI := "local" } st0).2.searchCache =
        st0.searchCache ∧
     (searchGen ⟨.error "boom", .error "boom"⟩ "residential" { useAI := "local" } st0).2.searchHistory =
        st0.searchHistory) :=
  ⟨⟨by decide, rfl, by decide, rfl⟩,
   c1_uncaught_exception_error_shape ⟨.error "boom", .error "boom"⟩ "residential"
     { useAI := "local" } st0 "boom" (by decide) rfl (Or.inl ⟨by decide, rfl⟩)⟩

/-- C2: on the AI path, if the AI call fails in any way the search still
resolves to the local search's result for the same (normalized) query,
location and maxResults, with `method = "local"`, `fallback = true` and
the captured AI error message. -/
theorem c2_ai_failure_falls_back (d : DataHandler) (fetch : FetchOutcome) (q : String)
    (opts : SearchOptions) (st : EngineState) (e : String)
    (hq : cleanQuery q ≠ "")
    (hmiss : cacheGet st.searchCache (cacheKeyOf (cleanQuery q) opts.location) = none)
    (hpath : dispatchIsLocal opts (cleanQuery q) = false)
    (hai : aiSearch d fetch (cleanQuery q) opts.maxResults st.now = .error e) :
    (search d fetch q opts st).1.method = "local" ∧
    (search d fetch q opts st).1.fallback = some true ∧
    (search d fetch q opts st).1.aiError = some e ∧
    (search d fetch q opts st).1.results =
      (localSearch d (cleanQuery q) opts.location opts.maxResults st.now).results := by
  unfold search searchGen
  rw [if_neg hq]
  simp only [hmiss, hpath, Bool.false_eq_true, if_false, hai, finishSearch]
  refine ⟨?_, ?_, ?_, ?_⟩ <;> trivial

/-- C2 witness: a non-simple query against a rejecting fetch. -/
theorem c2_witness :
    (cleanQuery "parks and recreation" ≠ "" ∧
     cacheGet st0.searchCache (cacheKeyOf (cleanQuery "parks and recreation") opts0.location) = none ∧
     dispatchIsLocal opts0 (cleanQuery "parks and recreation") = false ∧
     aiSearch d0 (.networkError "boom") (cleanQuery "parks and recreation") opts0.maxResults st0.now
        = .error "boom") ∧
    ((search d0 (.networkError "boom") "parks and recreation" opts0 st0).1.method = "local" ∧
     (search d0 (.networkError "boom") "parks and recreation" opts0 st0).1.fallback = some true ∧
     (search d0 (.networkError "boom") "parks and recreation" opts0 st0).1.aiError = some "boom" ∧
     (search d0 (.networkError "boom") "parks and recreation" opts0 st0).1.results =
       (localSearch d0 (cleanQuery "parks and recreation") opts0.location opts0.maxResults
          st0.now).results) :=
  ⟨⟨by decide, rfl, by decide, rfl⟩,
   c2_ai_failure_falls_back d0 (.networkError "boom") "parks and recreation" opts0 st0 "boom"
     (by decide) rfl (by decide) rfl⟩

/-- C3 counterexample: the claim says EVERY completed search — cache hit or
fresh — appends one history entry, so two identical completed searches
should leave two entries; in the code the cache-hit return happens before
`addToHistory`, so the history still has exactly one entry. -/
theorem c3_counterexample :
    (search d0 (.networkError "x") "residential" opts0
        (search d0 (.networkError "x") "residential" opts0 st0).2).2.searchHistory.length = 1 := by
  decide

/-- C3 (amended): only a search completing a fresh dispatch appends a
`{query, method, timestamp}` entry; a cache hit leaves the history
unchanged.  The fresh-dispatch update conses the new entry onto the front
and truncates to capacity 20, so the list is most-recent-first and after
25 distinct fresh searches exactly the 20 most recent remain. -/
theorem c3_history_amended (d : DataHandler) (fetch : FetchOutcome) (q : String)
    (opts : SearchOptions) (st : EngineState)
    (hq : cleanQuery q ≠ "") :
    (cacheGet st.searchCache (cacheKeyOf (cleanQuery q) opts.location) = none →
      (search d fetch q opts st).2.searchHistory =
        ({ query := cleanQuery q, method := (search d fetch q opts st).1.method,
           timestamp := st.now } :: st.searchHistory).take maxHistoryItems) ∧
    (∀ v, cacheGet st.searchCache (cacheKeyOf (cleanQuery q) opts.location) = some v →
      (search d fetch q opts st).2.searchHistory = st.searchHistory) := by
  constructor
  · intro hmiss
    obtain ⟨r, hval, -, hhist⟩ := search_miss_shape d fetch q opts st hq hmiss
    rw [hhist, addToHistory_eq_take, hval]
  · intro v hhit
    rw [search_hit_state d fetch q opts st v hq hhit]

/-- C3 witness: a fresh simple-query search from the empty state. -/
theorem c3_witness :
    (cleanQuery "residential" ≠ "") ∧
    ((cacheGet st0.searchCache (cacheKeyOf (cleanQuery "residential") opts0.location) = none →
      (search d0 (.networkError "x") "residential" opts0 st0).2.searchHistory =
        ({ query := cleanQuery "residential",
           method := (search d0 (.networkError "x") "residential" opts0 st0).1.method,
           timestamp := st0.now } :: st0.searchHistory).take maxHistoryItems) ∧
     (∀ v, cacheGet st0.searchCache (cacheKeyOf (cleanQuery "residential") opts0.location) = some v →
      (search d0 (.networkError "x") "residential" opts0 st0).2.searchHistory =
        st0.searchHistory)) :=
  ⟨by decide, c3_history_amended d0 (.networkError "x") "residential" opts0 st0 (by decide)⟩

/-- C4 (code bug): `"over 10 storeys"` and `"between 5 and 15 floors"`
parse as the claim says, but `"under 20m"` parses to `none`: the unit
alternation `(storey|floor|metre|meter)` of the source regex never matches
the bare abbreviation `m`, although the function's own comment lists
`"under 20m"` as a matched example and the claim expects
`{min: null, max: 20}`. -/
theorem c4_parseHeightQuery_eval :
    parseHeightQuery "over 10 storeys" = some ⟨some 30, none⟩ ∧
    parseHeightQuery "between 5 and 15 floors" = some ⟨some 15, some 45⟩ ∧
    parseHeightQuery "under 20m" = none := by
  decide

/-- C5: with loaded, non-empty boundary geometry, the containment test is
exactly the logical OR of the per-ring ray-casting test (holes counted as
ordinary rings). -/
theorem c5_contains_iff_any_ring (rings : List (List (ℚ × ℚ))) (lat lng : ℚ)
    (h : rings ≠ []) :
    isWithinNewWestminster (some rings) lat lng = true ↔
      ∃ ring ∈ rings, isPointInPolygon lat lng ring = true := by
  have hdef : isWithinNewWestminster (some rings) lat lng =
      if rings.length = 0 then fallbackBounds lat lng
      else rings.any (fun ring => isPointInPolygon lat lng ring) := rfl
  rw [hdef, if_neg (by simpa using h)]
  simp [List.any_eq_true]

/-- C5 witness: the unit square containing its centre point. -/
theorem c5_witness :
    ([sqRing] ≠ ([] : List (List (ℚ × ℚ)))) ∧
    (isWithinNewWestminster (some [sqRing]) (1/2) (1/2) = true ↔
      ∃ ring ∈ [sqRing], isPointInPolygon (1/2) (1/2) ring = true) :=
  ⟨by decide, c5_contains_iff_any_ring [sqRing] (1/2) (1/2) (by decide)⟩

/-- C6: repeating a search with the same query and location before any
invalidation returns the identical result value from the cache on the
second call, without invoking the AI proxy or the local search again; the
entry lives under the key built by `cacheKeyOf` (normalized query plus the
optional location's coordinates, empty when absent). -/
theorem c6_second_call_cached (d : DataHandler) (fetch : FetchOutcome) (q : String)
    (opts : SearchOptions) (st : EngineState)
    (hq : cleanQuery q ≠ "") :
    (search d fetch q opts (search d fetch q opts st).2).1 = (search d fetch q opts st).1 ∧
    (search d fetch q opts (search d fetch q opts st).2).2.aiCalls =
      (search d fetch q opts st).2.aiCalls ∧
    (search d fetch q opts (search d fetch q opts st).2).2.localCalls =
      (search d fetch q opts st).2.localCalls ∧
    cacheGet (search d fetch q opts st).2.searchCache
        (cacheKeyOf (cleanQuery q) opts.location) = some (search d fetch q opts st).1 := by
  have h4 := search_val_cached d fetch q opts st hq
  have h2 := search_hit_state d fetch q opts (search d fetch q opts st).2
      (search d fetch q opts st).1 hq h4
  rw [h2]
  exact ⟨rfl, rfl, rfl, h4⟩

/-- C6 witness: the simple query `"residential"` searched twice. -/
theorem c6_witness :
    (cleanQuery "residential" ≠ "") ∧
    ((search d0 (.networkError "x") "residential" opts0
        (search d0 (.networkError "x") "residential" opts0 st0).2).1 =
      (search d0 (.networkError "x") "residential" opts0 st0).1 ∧
     (search d0 (.networkError "x") "residential" opts0
        (search d0 (.networkError "x") "residential" opts0 st0).2).2.aiCalls =
      (search d0 (.networkError "x") "residential" opts0 st0).2.aiCalls ∧
     (search d0 (.networkError "x") "residential" opts0
        (search d0 (.networkError "x") "residential" opts0 st0).2).2.localCalls =
      (search d0 (.networkError "x") "residential" opts0 st0).2.localCalls ∧
     cacheGet (search d0 (.networkError "x") "residential" opts0 st0).2.searchCache
        (cacheKeyOf (cleanQuery "residential") opts0.location) =
      some (search d0 (.networkError "x") "residential" opts0 st0).1) :=
  ⟨by decide, c6_second_call_cached d0 (.networkError "x") "residential" opts0 st0 (by decide)⟩

/-- C7 counterexample: a query of pure disallowed punctuation does NOT
normalize to the empty string — `cleanQuery` trims first and then replaces
each disallowed character by a space, leaving `" "` — so `search "!!!"` is
dispatched (here to the AI path) instead of returning the claimed
`{results: [], method: "none", error: "Empty query"}`. -/
theorem c7_counterexample :
    cleanQuery "!!!" = " " ∧
    (search d0 (.ok aiR0) "!!!" opts0 st0).1.method = "ai" ∧
    (search d0 (.ok aiR0) "!!!" opts0 st0).1 ≠ emptyQueryResult := by
  decide

/-- C7 (amended): normalization trims, replaces characters outside
word/space/hyphen/apostrophe by spaces, collapses whitespace and
lower-cases; only a query that is empty after this normalization (i.e. an
all-whitespace input) makes `search` return
`{results := [], method := "none", error := "Empty query"}` immediately,
with the engine state — cache and history — untouched and no dispatch. -/
theorem c7_empty_query_short_circuit (d : DataHandler) (fetch : FetchOutcome) (q : String)
    (opts : SearchOptions) (st : EngineState)
    (h : cleanQuery q = "") :
    search d fetch q opts st = (emptyQueryResult, st) := by
  unfold search searchGen
  rw [if_pos h]

/-- C7 witness: an all-whitespace query. -/
theorem c7_witness :
    (cleanQuery "   " = "") ∧
    search d0 (.networkError "x") "   " opts0 st0 = (emptyQueryResult, st0) :=
  ⟨by decide, c7_empty_query_short_circuit d0 (.networkError "x") "   " opts0 st0 (by decide)⟩

/-- C9: `initialize` is idempotent — from a fresh state, the first of
`n + 1` successive calls starts the load and every call returns the very
same promise, while `loadAllData` (the underlying fetch) runs exactly
once. -/
theorem c9_load_idempotent (st : LoaderState) (n : Nat)
    (h : st.loadingPromise = none) :
    (initIter (n + 1) st).1 = List.replicate (n + 1) st.nextId ∧
    (initIter (n + 1) st).2.loadCalls = st.loadCalls + 1 := by
  have h1 : initData st =
      (st.nextId, { loadingPromise := some st.nextId, loadCalls := st.loadCalls + 1,
                    nextId := st.nextId + 1 }) := by
    unfold initData
    rw [h]
  have h2 := initIter_loaded n
      { loadingPromise := some st.nextId, loadCalls := st.loadCalls + 1,
        nextId := st.nextId + 1 } st.nextId rfl
  unfold initIter
  rw [h1]
  simp only [h2]
  refine ⟨?_, ?_⟩
  · simp [List.replicate_succ]
  · trivial

/-- C9 witness: 25 successive `initialize` calls from a fresh loader. -/
theorem c9_witness :
    (({ loadingPromise := none, loadCalls := 0, nextId := 0 } : LoaderState).loadingPromise
        = none) ∧
    ((initIter 25 { loadingPromise := none, loadCalls := 0, nextId := 0 }).1 =
        List.replicate 25
          ({ loadingPromise := none, loadCalls := 0, nextId := 0 } : LoaderState).nextId ∧
     (initIter 25 { loadingPromise := none, loadCalls := 0, nextId := 0 }).2.loadCalls =
        ({ loadingPromise := none, loadCalls := 0, nextId := 0 } : LoaderState).loadCalls + 1) :=
  ⟨rfl, c9_load_idempotent { loadingPromise := none, loadCalls := 0, nextId := 0 } 24 rfl⟩

/-- C10 (implicit): the local search takes at most
`floor(0.6 * maxResults)` keyword hits — the rest are dropped before
deduplication and final truncation, regardless of how few results there
are in total — at most 2 results per detected category, at most 3 height
results, and at most one location-specific item in front. -/
theorem c10_localSearch_caps (d : DataHandler) (q : String) (location : Option Location)
    (maxResults now : Nat) :
    ∃ categoryPart heightPart locationPart : List ResultItem,
      (localSearch d q location maxResults now).results =
        (removeDuplicates (locationPart ++
          ((searchByKeywords d q).take (keywordCap maxResults) ++
            (categoryPart ++ heightPart)))).take maxResults ∧
      categoryPart.length ≤ 2 * (detectCategories (toLowerStr q)).length ∧
      heightPart.length ≤ 3 ∧
      locationPart.length ≤ 1 := by
  refine ⟨(detectCategories (toLowerStr q)).flatMap
            (fun c => ((searchByCategory d c).take 2).map (fun cd => mkCategoryItem cd.1 cd.2 c)),
          (match parseHeightQuery (toLowerStr q) with
           | some hq => (searchByHeight d hq.min hq.max).take 3
           | none => []),
          (match location with
           | some loc =>
              (match (getLocationInfo d loc.lat loc.lng).landUse with
               | some lu => [mkLocationItem lu]
               | none => [])
           | none => []), ?_, ?_, ?_, ?_⟩
  · unfold localSearch
    cases location with
    | none => rfl
    | some loc =>
        cases hlu : (getLocationInfo d loc.lat loc.lng).landUse with
        | none => simp only [hlu]; rfl
        | some lu => simp only [hlu]; rfl
  · exact flatMap_length_le_two_mul _ _
      (fun c => by
        rw [List.length_map]
        exact List.length_take_le 2 (searchByCategory d c))
  · cases parseHeightQuery (toLowerStr q) with
    | none => simp
    | some hq => exact List.length_take_le 3 (searchByHeight d hq.min hq.max)
  · cases location with
    | none => simp
    | some loc =>
        cases hlu : (getLocationInfo d loc.lat loc.lng).landUse with
        | none => simp [hlu]
        | some lu => simp [hlu]

/-- C8 counterexample: a designation whose `category` is `"residential"`
but whose name, description and use lists never mention it is NOT returned
by `searchByKeywords "residential"`, because the code's land-use
searchable text omits the category — while the claim's searchable text
(name + description + category + uses) does contain the token. -/
theorem c8_counterexample :
    searchByKeywords dC8 "residential" = [] ∧
    strContains (landUseSearchTextSpec desC8) "residential" = true ∧
    strContains (landUseSearchText desC8) "residential" = false ∧
    desC8.category = "residential" := by
  decide

/-- C8 (amended): an item is returned by `searchByKeywords` exactly when
some token of the lower-cased query (split on single spaces) is a
substring of its searchable text — for land-use items the name,
description and principal/complementary use lists (the category is NOT
part of it), for policies the title and text — and, when the source codes
are unique, the result list has no two entries with the same
(type, code) pair. -/
theorem c8_keyword_search_amended (d : DataHandler) (q : String)
    (hl : d.isLoaded = true)
    (hlu : (d.data.landUse.map (fun cd => cd.1)).Nodup)
    (hpol : (d.data.policies.flatMap
        (fun cp => cp.2.map (fun pp => cp.1 ++ "." ++ pp.1))).Nodup) :
    (∀ r : ResultItem, r ∈ searchByKeywords d q ↔
        ((∃ cd ∈ d.data.landUse,
            keywordHit (keywordsOf q) (landUseSearchText cd.2) = true ∧
            mkLandUseItem cd.1 cd.2 = r) ∨
         (∃ cp ∈ d.data.policies, ∃ pp ∈ cp.2,
            keywordHit (keywordsOf q) (policySearchText pp.2) = true ∧
            mkPolicyItem cp.1 pp.1 pp.2 = r))) ∧
    ((searchByKeywords d q).map (fun r => (r.rtype, r.code))).Nodup := by
  have hsbk : searchByKeywords d q =
      ((d.data.landUse.filter
          (fun cd => keywordHit (keywordsOf q) (landUseSearchText cd.2))).map
        (fun cd => mkLandUseItem cd.1 cd.2)) ++
      (d.data.policies.flatMap (fun cp =>
        (cp.2.filter (fun pp => keywordHit (keywordsOf q) (policySearchText pp.2))).map
          (fun pp => mkPolicyItem cp.1 pp.1 pp.2))) := by
    simp [searchByKeywords, hl]
  constructor
  · intro r
    rw [hsbk]
    simp only [List.mem_append, List.mem_map, List.mem_filter, List.mem_flatMap]
    constructor
    · rintro (⟨cd, ⟨hmem, hhit⟩, heq⟩ | ⟨cp, hcp, pp, ⟨hmem, hhit⟩, heq⟩)
      · exact Or.inl ⟨cd, hmem, hhit, heq⟩
      · exact Or.inr ⟨cp, hcp, pp, hmem, hhit, heq⟩
    · rintro (⟨cd, hmem, hhit, heq⟩ | ⟨cp, hcp, pp, hmem, hhit, heq⟩)
      · exact Or.inl ⟨cd, ⟨hmem, hhit⟩, heq⟩
      · exact Or.inr ⟨cp, hcp, pp, ⟨hmem, hhit⟩, heq⟩
  · rw [hsbk, List.map_append]
    have h1 : (((d.data.landUse.filter
          (fun cd => keywordHit (keywordsOf q) (landUseSearchText cd.2))).map
            (fun cd => mkLandUseItem cd.1 cd.2)).map (fun r => (r.rtype, r.code))) =
        ((d.data.landUse.filter
          (fun cd => keywordHit (keywordsOf q) (landUseSearchText cd.2))).map
            (fun cd => cd.1)).map
          (fun c => (("land-use" : String), (some c : Option String))) := by
      rw [List.map_map, List.map_map]
      rfl
    have h2 : ((d.data.policies.flatMap (fun cp =>
          (cp.2.filter (fun pp => keywordHit (keywordsOf q) (policySearchText pp.2))).map
            (fun pp => mkPolicyItem cp.1 pp.1 pp.2))).map (fun r => (r.rtype, r.code))) =
        (d.data.policies.flatMap (fun cp =>
          (cp.2.filter (fun pp => keywordHit (keywordsOf q) (policySearchText pp.2))).map
            (fun pp => cp.1 ++ "." ++ pp.1))).map
          (fun c => (("policy" : String), (some c : Option String))) := by
      simp only [List.map_flatMap, List.map_map]
      rfl
    rw [h1, h2]
    have hinj1 : Function.Injective
        (fun c => (("land-use" : String), (some c : Option String))) := by
      intro a b hab
      simpa using hab
    have hinj2 : Function.Injective
        (fun c => (("policy" : String), (some c : Option String))) := by
      intro a b hab
      simpa using hab
    have hn1 : ((d.data.landUse.filter
        (fun cd => keywordHit (keywordsOf q) (landUseSearchText cd.2))).map
          (fun cd => cd.1)).Nodup := by
      apply hlu.sublist
      exact (List.filter_sublist _).map _
    have hn2 : ((d.data.policies.flatMap (fun cp =>
        (cp.2.filter (fun pp => keywordHit (keywordsOf q) (policySearchText pp.2))).map
          (fun pp => cp.1 ++ "." ++ pp.1)))).Nodup := by
      apply hpol.sublist
      apply flatMap_sublist
      intro cp
      exact (List.filter_sublist _).map _
    refine (hn1.map hinj1).append (hn2.map hinj2) ?_
    intro x hx1 hx2
    obtain ⟨c, -, rfl⟩ := List.mem_map.mp hx1
    obtain ⟨c', -, hx⟩ := List.mem_map.mp hx2
    simp at hx

/-- C8 witness: a loaded repository with one designation and one policy. -/
theorem c8_witness :
    (dW.isLoaded = true ∧
     (dW.data.landUse.map (fun cd => cd.1)).Nodup ∧
     (dW.data.policies.flatMap
        (fun cp => cp.2.map (fun pp => cp.1 ++ "." ++ pp.1))).Nodup) ∧
    ((∀ r : ResultItem, r ∈ searchByKeywords dW "residential" ↔
        ((∃ cd ∈ dW.data.landUse,
            keywordHit (keywordsOf "residential") (landUseSearchText cd.2) = true ∧
            mkLandUseItem cd.1 cd.2 = r) ∨
         (∃ cp ∈ dW.data.policies, ∃ pp ∈ cp.2,
            keywordHit (keywordsOf "residential") (policySearchText pp.2) = true ∧
            mkPolicyItem cp.1 pp.1 pp.2 = r))) ∧
     ((searchByKeywords dW "residential").map (fun r => (r.rtype, r.code))).Nodup) :=
  ⟨⟨rfl, by decide, by decide⟩,
   c8_keyword_search_amended dW "residential" rfl (by decide) (by decide)⟩
